import Mathlib

/-!
Verification development for the prompt-shield detection and scoring engine.

This file gives a shallow embedding, in Lean 4, of the core scanning
pipeline of the repository: the data model (`Severity`, `Action`,
`MatchDetail`, `DetectionResult`, `ScanReport`), the adaptive threshold
tuner (`feedback/auto_tuner.py` together with the statistics computed by
`feedback/feedback_store.py`), representative detectors
(`detectors/d003_instruction_override.py`,
`detectors/d006_multi_turn_escalation.py`,
`detectors/d008_base64_payload.py`,
`detectors/d009_rot13_substitution.py`,
`detectors/d021_vault_similarity.py`), and the scan orchestrator
(`engine.py`).

Modelling conventions:
- Python floats are modelled as rationals (`ℚ`); the constants 0.05,
  0.03, 0.7, ... are written as exact rationals.
- Regex search of a *literal* pattern with `IGNORECASE` is modelled as
  substring containment in the lowercased text.  Searches with
  non-literal regular expressions (the pattern tables of the pattern
  detectors, and the base64 candidate scanner) are external to the
  algorithmic content verified here and are passed in as oracle
  parameters; every theorem below quantifies over them.
- A detector invocation that raises an exception is modelled as the
  `detect` function returning `none`.
- Effectful, non-algorithmic fields of the report (UUID generation,
  SHA-256 hashing, wall-clock timestamps and durations, SQLite logging)
  are elided: the scan id is passed in as a parameter and timestamps /
  durations / hashes are not represented, since no verified property
  mentions them.
- Free-text explanation / description strings are carried but their
  exact interpolated contents (f-string formatting) are simplified to
  fixed texts; no verified property reads them.
-/

namespace PromptShield

/-- Severity level for a detection (`models.py`, class `Severity`). -/
inductive Severity where
  | low
  | medium
  | high
  | critical
deriving DecidableEq, Repr

/-- Parse a severity string, mirroring `Severity(value)` which raises
`ValueError` (here: `none`) on an invalid value. -/
def Severity.ofString : String → Option Severity
  | "low" => some .low
  | "medium" => some .medium
  | "high" => some .high
  | "critical" => some .critical
  | _ => none

/-- Recommended action after scanning (`models.py`, class `Action`). -/
inductive Action where
  | block
  | flag
  | log
  | pass
deriving DecidableEq, Repr

/-- Parse an action string, mirroring `Action(value)` which raises
`ValueError` (here: `none`) on an invalid value. -/
def Action.ofString : String → Option Action
  | "block" => some .block
  | "flag" => some .flag
  | "log" => some .log
  | "pass" => some .pass
  | _ => none

/-- Details about a specific pattern match within the input
(`models.py`, class `MatchDetail`). -/
structure MatchDetail where
  pattern : String
  matched_text : String
  position : Option (Nat × Nat) := none
  description : String := ""
deriving DecidableEq, Repr

/-- Result from a single detector (`models.py`, class `DetectionResult`).
The open `metadata` map is elided (no detector modelled here writes
it and nothing verified reads it). -/
structure DetectionResult where
  -- `matches'` renders the source field `matches` (reserved term syntax
  -- in Lean 4).
  detector_id : String
  detected : Bool
  confidence : ℚ
  severity : Severity
  matches' : List MatchDetail := []
  explanation : String := ""
deriving DecidableEq, Repr

/-- Aggregated result from the engine (`models.py`, class `ScanReport`).
`input_hash`, `timestamp` and `scan_duration_ms` are elided (external
effects, see the header comment). -/
structure ScanReport where
  scan_id : String
  input_text : String
  overall_risk_score : ℚ
  action : Action
  detections : List DetectionResult
  total_detectors_run : Nat
  vault_matched : Bool := false
  config_mode : String := "block"
deriving DecidableEq, Repr

/-! ## Feedback statistics (`feedback/feedback_store.py`) -/

/-- Statistics returned by `FeedbackStore.get_detector_stats`. -/
structure DetectorStats where
  total : Nat
  true_positives : Nat
  false_positives : Nat
  fp_rate : ℚ
deriving DecidableEq, Repr

/-- FeedbackStore.get_detector_stats: the feedback rows for one detector
are the recorded `is_correct` flags; `true_positives` counts the correct
ones, `false_positives` the rest, and `fp_rate = false_positives / total`
(0 when there are no rows). -/
def get_detector_stats (rows : List Bool) : DetectorStats :=
  let total := rows.length
  let true_positives := rows.countP (fun b => b = true)
  let false_positives := total - true_positives
  { total := total
    true_positives := true_positives
    false_positives := false_positives
    fp_rate := if 0 < total then (false_positives : ℚ) / (total : ℚ) else 0 }

/-! ## Adaptive threshold tuner (`feedback/auto_tuner.py`) -/

/-- One row of the `detector_tuning` table (spec: `TuningRecord`).
The `last_tuned_at` timestamp is elided. -/
structure TuningRecord where
  adjusted_threshold : ℚ
  original_threshold : ℚ
  total_scans : Nat
  true_positives : Nat
  false_positives : Nat
deriving DecidableEq, Repr

/-- The `detector_tuning` table: an association list keyed by
`detector_id` (SQL primary key). -/
abbrev TunerState : Type := List (String × TuningRecord)

/-- SQL upsert (`INSERT ... ON CONFLICT(detector_id) DO UPDATE`): on
conflict every column except `detector_id` and `original_threshold` is
replaced (the `DO UPDATE SET` clause does not list
`original_threshold`). -/
def upsertTuning : TunerState → String → TuningRecord → TunerState
  | [], detector_id, rec => [(detector_id, rec)]
  | (k, old) :: rest, detector_id, rec =>
    if k = detector_id then
      (k, { rec with original_threshold := old.original_threshold }) :: rest
    else
      (k, old) :: upsertTuning rest detector_id rec

/-- One iteration of the loop body of `AutoTuner.tune` for a single
detector: skip when fewer than 10 feedback rows, otherwise start from the
recorded adjustment (assuming original = adjusted = 0.5 when no row
exists), add +0.03 when `fp_rate > 0.20`, subtract 0.01 when
`fp_rate < 0.05` and `true_positives > 20`, clamp the cumulative
adjustment to `[-max_adjustment, +max_adjustment]`, and upsert the row. -/
def tuneOne (max_adjustment : ℚ) (st : TunerState) (detector_id : String)
    (rows : List Bool) : TunerState :=
  let stats := get_detector_stats rows
  if stats.total < 10 then st
  else
    let pair :=
      match st.lookup detector_id with
      | some row => (row.original_threshold, row.adjusted_threshold)
      | none => ((1 : ℚ) / 2, (1 : ℚ) / 2)
    let original_threshold := pair.1
    let current_threshold := pair.2
    let adjustment := current_threshold - original_threshold
    let adjustment :=
      if (1 : ℚ) / 5 < stats.fp_rate then adjustment + 3 / 100
      else if stats.fp_rate < 1 / 20 ∧ 20 < stats.true_positives then
        adjustment - 1 / 100
      else adjustment
    let adjustment := max (-max_adjustment) (min max_adjustment adjustment)
    let new_threshold := original_threshold + adjustment
    upsertTuning st detector_id
      { adjusted_threshold := new_threshold
        original_threshold := original_threshold
        total_scans := stats.total
        true_positives := stats.true_positives
        false_positives := stats.false_positives }

/-- AutoTuner.tune: fold the per-detector iteration over the statistics
of every detector that has feedback (`FeedbackStore.get_all_stats`,
presented as an association list of per-detector feedback rows). -/
def tune (max_adjustment : ℚ) (all_feedback : List (String × List Bool))
    (st : TunerState) : TunerState :=
  all_feedback.foldl (fun s p => tuneOne max_adjustment s p.1 p.2) st

/-- AutoTuner.get_effective_threshold: the persisted
`adjusted_threshold` when a tuning row exists, the caller's default
otherwise. -/
def get_effective_threshold (st : TunerState) (detector_id : String)
    (default : ℚ) : ℚ :=
  match st.lookup detector_id with
  | some row => row.adjusted_threshold
  | none => default

/-- The tuner invariant claimed by the spec: every persisted row keeps
its cumulative adjustment within `max_adjustment` of the original
threshold. -/
def TunerBounded (max_adjustment : ℚ) (st : TunerState) : Prop :=
  ∀ p ∈ st, |p.2.adjusted_threshold - p.2.original_threshold| ≤ max_adjustment

/-! ## Text helpers (`utils.py` and Python string primitives) -/

/-- Python substring containment (`needle in haystack`) on character
lists. -/
def isSubChars : List Char → List Char → Bool
  | needle, [] => needle.isEmpty
  | needle, c :: rest => needle.isPrefixOf (c :: rest) || isSubChars needle rest

/-- Python `str.lower()` restricted to the ASCII texts the detectors
compare against. -/
def lowerChars (s : String) : List Char := s.toList.map Char.toLower

/-- Python `needle in haystack.lower()` for an (already lowercase)
needle. -/
def keywordInLower (needle : String) (haystack : String) : Bool :=
  isSubChars needle.toList (lowerChars haystack)

/-- The `input_text[:120] + ("..." if len(input_text) > 120 else "")`
truncation used in the obfuscation detectors' `matched_text`. -/
def truncate120 (s : String) : String :=
  String.mk (s.toList.take 120) ++ (if 120 < s.toList.length then "..." else "")

/-- decode_rot13 (`utils.py`): ROT13 on ASCII letters, identity
elsewhere (`codecs.decode(text, "rot_13")`). -/
def rot13Char (c : Char) : Char :=
  if 97 ≤ c.toNat ∧ c.toNat ≤ 122 then Char.ofNat (97 + ((c.toNat - 97 + 13) % 26))
  else if 65 ≤ c.toNat ∧ c.toNat ≤ 90 then Char.ofNat (65 + ((c.toNat - 65 + 13) % 26))
  else c

/-- decode_rot13 lifted to strings. -/
def decode_rot13 (s : String) : String := String.mk (s.toList.map rot13Char)

/-! ## Scan context -/

/-- The slice of the caller-supplied `context` dict that the modelled
detectors read: `context.get("conversation_history")`, present only when
the caller supplied a list (each turn is rendered with `str`, modelled
as already being a string). -/
structure ScanContext where
  conversation_history : Option (List String) := none
deriving DecidableEq, Repr

/-! ## d003: instruction override (`detectors/d003_instruction_override.py`)

The pattern table of this detector consists of non-literal regular
expressions; the scan of the input against that table is the oracle
parameter `matches'` (the list built by the `finditer` loop).  Everything
after the loop is translated from the source. -/

namespace InstructionOverrideDetector

def detector_id : String := "d003_instruction_override"

def severity : Severity := Severity.high

def base_confidence : ℚ := 8 / 10

/-- InstructionOverrideDetector.detect, after the `finditer` loop has
produced `matches'`. -/
def detect (matches' : List MatchDetail) : DetectionResult :=
  if matches'.isEmpty then
    { detector_id := detector_id
      detected := false
      confidence := 0
      severity := severity
      explanation := "No suspicious patterns found" }
  else
    { detector_id := detector_id
      detected := true
      confidence := min 1 (base_confidence + 1 / 10 * ((matches'.length : ℚ) - 1))
      severity := severity
      matches' := matches'
      explanation := "Detected pattern(s) indicating instruction override" }

end InstructionOverrideDetector

/-! ## d006: multi-turn escalation (`detectors/d006_multi_turn_escalation.py`)

The current-message pattern table consists of non-literal regular
expressions and is the oracle parameter `matches'`; the history
escalation vocabulary consists of literal phrases and is translated
directly (case-insensitive literal search = containment in the
lowercased text). -/

namespace MultiTurnEscalationDetector

def detector_id : String := "d006_multi_turn_escalation"

def severity : Severity := Severity.medium

def base_confidence : ℚ := 7 / 10

def escalation_confidence : ℚ := 85 / 100

/-- The `_history_escalation_patterns` vocabulary (all literal). -/
def history_escalation_patterns : List String :=
  ["can you", "what about", "now try", "go further", "more detail",
   "expand on", "take it further", "push it", "one more", "also add"]

/-- Whether one history message contains any escalation phrase (the
inner loop of `_count_history_escalation_signals`; `break` caps the
contribution at one signal per message). -/
def messageHasEscalationSignal (message : String) : Bool :=
  history_escalation_patterns.any (fun pat => keywordInLower pat message)

/-- MultiTurnEscalationDetector._count_history_escalation_signals. -/
def count_history_escalation_signals (conversation_history : List String) : Nat :=
  conversation_history.countP (fun m => messageHasEscalationSignal m = true)

/-- The history extraction of `detect`: `context.get("conversation_history")`
contributes signals only when the caller supplied a non-empty list. -/
def history_count (context : Option ScanContext) : Nat :=
  match context with
  | none => 0
  | some ctx =>
    match ctx.conversation_history with
    | some h => if h.isEmpty then 0 else count_history_escalation_signals h
    | none => 0

/-- MultiTurnEscalationDetector.detect, after the `finditer` loop has
produced `matches'`. -/
def detect (matches' : List MatchDetail) (context : Option ScanContext) :
    DetectionResult :=
  let history_escalation_count := history_count context
  if matches'.isEmpty ∧ history_escalation_count < 3 then
    { detector_id := detector_id
      detected := false
      confidence := 0
      severity := severity
      explanation := "No suspicious patterns found" }
  else
    let confidence : ℚ :=
      if matches'.isEmpty then 0
      else min 1 (base_confidence + 1 / 10 * ((matches'.length : ℚ) - 1))
    let confidence : ℚ :=
      if 3 ≤ history_escalation_count then
        max confidence
          (min 1 (escalation_confidence +
            5 / 100 * ((history_escalation_count : ℚ) - 3)))
      else confidence
    { detector_id := detector_id
      detected := true
      confidence := confidence
      severity := severity
      matches' := matches'
      explanation := "Escalation signals detected" }

end MultiTurnEscalationDetector

/-! ## d008: base64 payload (`detectors/d008_base64_payload.py`)

The `_BASE64_PATTERN.finditer` scan and `decode_base64_safe` call are the
oracle parameter: each candidate records the matched base64-looking
substring, its offsets, and the result of `decode_base64_safe` (`none`
models decoding failure).  The keyword check against the decoded text is
translated from the source. -/

/-- One iteration of the `finditer` loop of d008: the regex match plus
its `decode_base64_safe` result. -/
structure B64Candidate where
  b64_string : String
  start_pos : Nat
  end_pos : Nat
  decoded : Option String
deriving DecidableEq, Repr

namespace Base64PayloadDetector

def detector_id : String := "d008_base64_payload"

def severity : Severity := Severity.high

/-- The `_SUSPICIOUS_KEYWORDS` table of d008. -/
def suspicious_keywords : List String :=
  ["ignore", "instructions", "system prompt", "system", "prompt",
   "override", "execute", "admin", "jailbreak", "pretend", "forget",
   "bypass", "hack", "inject", "exploit", "passwd", "password", "secret",
   "token", "reveal"]

/-- `found_keywords`: the suspicious keywords contained in the decoded
text, lowercased.  Note: the source checks the *decoded* text only and
never consults the original input. -/
def found_keywords (decoded : String) : List String :=
  suspicious_keywords.filter (fun kw => keywordInLower kw decoded)

/-- The match list built by the `finditer` loop of
`Base64PayloadDetector.detect`. -/
def collectMatches (cands : List B64Candidate) : List MatchDetail :=
  cands.foldr
    (fun c acc =>
      match c.decoded with
      | none => acc
      | some decoded =>
        if (found_keywords decoded).isEmpty then acc
        else
          { pattern := "[A-Za-z0-9+/]\x7b8,\x7d=\x7b0,2\x7d"
            matched_text := c.b64_string
            position := some (c.start_pos, c.end_pos)
            description := "Base64-encoded text decodes to suspicious content" }
          :: acc)
    []

/-- Base64PayloadDetector.detect, with the regex/decode oracle applied. -/
def detect (cands : List B64Candidate) : DetectionResult :=
  let ms := collectMatches cands
  if ms.isEmpty then
    { detector_id := detector_id
      detected := false
      confidence := 0
      severity := severity
      explanation := "No suspicious patterns found" }
  else
    { detector_id := detector_id
      detected := true
      confidence := min 1 (85 / 100 + 1 / 10 * ((ms.length : ℚ) - 1))
      severity := severity
      matches' := ms
      explanation := "Detected base64-encoded payload(s)" }

end Base64PayloadDetector

/-- Modelled from the spec: the spec's obfuscation-decoding rule applied
to d008 — "a keyword counts as a signal only if it is not already
present in the untransformed original".  Identical to
`Base64PayloadDetector.found_keywords` except that keywords already
contained in the original input are discarded.  Used only to compare the
source behaviour with the spec's words. -/
def specFoundKeywordsB64 (original : String) (decoded : String) : List String :=
  (Base64PayloadDetector.found_keywords decoded).filter
    (fun kw => ¬ keywordInLower kw original)

/-! ## d009: ROT13 / character substitution
(`detectors/d009_rot13_substitution.py`)

This detector uses no regular expressions at all (ROT13 decode,
l33tspeak character map, string reversal, literal keyword containment),
so it is translated in full. -/

namespace Rot13SubstitutionDetector

def detector_id : String := "d009_rot13_substitution"

def severity : Severity := Severity.high

/-- The `_SUSPICIOUS_KEYWORDS` table of d009. -/
def suspicious_keywords : List String :=
  ["ignore", "instructions", "system prompt", "override", "execute",
   "admin", "jailbreak", "pretend", "forget"]

/-- The `_LEET_MAP` character substitutions. -/
def leetChar (c : Char) : Char :=
  if c = '1' then 'i'
  else if c = '3' then 'e'
  else if c = '4' then 'a'
  else if c = '0' then 'o'
  else if c = '5' then 's'
  else if c = '7' then 't'
  else c

/-- _decode_leet. -/
def decode_leet (s : String) : String := String.mk (s.toList.map leetChar)

/-- Python `text[::-1]`. -/
def reverseString (s : String) : String := String.mk (s.toList.reverse)

/-- _find_keywords: the suspicious keywords contained in the lowercased
text. -/
def find_keywords (text : String) : List String :=
  suspicious_keywords.filter (fun kw => keywordInLower kw text)

/-- `rot13_unique`: keywords of the ROT13-decoded text that are not
already keywords of the original text. -/
def rot13_unique (input_text : String) : List String :=
  (find_keywords (decode_rot13 input_text)).filter
    (fun kw => kw ∉ find_keywords input_text)

/-- `leet_unique`: keywords of the l33tspeak-decoded text that are not
already keywords of the original text. -/
def leet_unique (input_text : String) : List String :=
  (find_keywords (decode_leet input_text)).filter
    (fun kw => kw ∉ find_keywords input_text)

/-- `reversed_unique`: keywords of the reversed text that are not
already keywords of the original text. -/
def reversed_unique (input_text : String) : List String :=
  (find_keywords (reverseString input_text)).filter
    (fun kw => kw ∉ find_keywords input_text)

/-- The match list of `detect`: the three checks append at most one
`MatchDetail` each, in source order ROT13, l33tspeak, reversed. -/
def collectMatches (input_text : String) : List MatchDetail :=
  (if ¬ (rot13_unique input_text).isEmpty then
    [{ pattern := "ROT13 decode"
       matched_text := truncate120 input_text
       position := some (0, input_text.toList.length)
       description := "ROT13-decoded text contains suspicious keywords" }]
   else []) ++
  (if ¬ (leet_unique input_text).isEmpty then
    [{ pattern := "l33tspeak decode"
       matched_text := truncate120 input_text
       position := some (0, input_text.toList.length)
       description := "L33tspeak-decoded text contains suspicious keywords" }]
   else []) ++
  (if ¬ (reversed_unique input_text).isEmpty then
    [{ pattern := "reversed text decode"
       matched_text := truncate120 input_text
       position := some (0, input_text.toList.length)
       description := "Reversed text contains suspicious keywords" }]
   else [])

/-- `best_confidence`: the maximum of the per-method confidences (0.8
for ROT13, 0.7 for l33tspeak, 0.7 for reversed text) over the methods
that fired (0 when none did, unused in that case). -/
def best_confidence (input_text : String) : ℚ :=
  max (max (if ¬ (rot13_unique input_text).isEmpty then 8 / 10 else 0)
           (if ¬ (leet_unique input_text).isEmpty then 7 / 10 else 0))
      (if ¬ (reversed_unique input_text).isEmpty then 7 / 10 else 0)

/-- Rot13SubstitutionDetector.detect. -/
def detect (input_text : String) : DetectionResult :=
  let ms : List MatchDetail := collectMatches input_text
  let best_confidence : ℚ := best_confidence input_text
  if ms.isEmpty then
    { detector_id := detector_id
      detected := false
      confidence := 0
      severity := severity
      explanation := "No suspicious patterns found" }
  else
    { detector_id := detector_id
      detected := true
      confidence := min 1 (best_confidence + 1 / 10 * ((ms.length : ℚ) - 1))
      severity := severity
      matches' := ms
      explanation := "Detected obfuscation method(s) hiding suspicious instructions" }

end Rot13SubstitutionDetector

/-! ## Attack vault and d021 (`vault/attack_vault.py`,
`detectors/d021_vault_similarity.py`)

The embedding model and the ChromaDB index are external collaborators;
their observable contract is the per-pair similarity score, modelled as
a function `sim : String → String → ℚ` (cosine similarity is
`1 - distance` of deterministic embeddings).  Entry ids are elided: the
source only interpolates them into description strings. -/

/-- One stored vault entry: the attack text plus the metadata the engine
stores with it (`detector_id`/`source`/`timestamp` metadata fields are
elided; only `severity` and `confidence` are read back). -/
structure VaultEntry where
  text : String
  severity : Severity
  confidence : ℚ
deriving DecidableEq, Repr

/-- AttackVault state: the stored entries plus the configured
`similarity_threshold` (default 0.85). -/
structure VaultState where
  entries : List VaultEntry
  similarity_threshold : ℚ := 85 / 100
deriving DecidableEq, Repr

/-- One result of `AttackVault.query` (class `VaultMatch`): similarity
score plus the `severity` metadata key (absent when the stored metadata
had none). -/
structure VaultMatch where
  similarity_score : ℚ
  severity : Option Severity
deriving DecidableEq, Repr

/-- Insert into a list sorted by descending similarity score. -/
def insertByScoreDesc (m : VaultMatch) : List VaultMatch → List VaultMatch
  | [] => [m]
  | x :: xs =>
    if x.similarity_score ≤ m.similarity_score then m :: x :: xs
    else x :: insertByScoreDesc m xs

/-- Sort vault matches by descending similarity score. -/
def sortByScoreDesc (ms : List VaultMatch) : List VaultMatch :=
  ms.foldr insertByScoreDesc []

/-- AttackVault.query: score every stored entry against the input
(`similarity = 1 - distance`), sorted by descending similarity; ChromaDB
returns at most `n_results = 5` nearest entries. -/
def VaultState.query (sim : String → String → ℚ) (vault : VaultState)
    (input_text : String) : List VaultMatch :=
  (sortByScoreDesc (vault.entries.map
    (fun e => { similarity_score := sim input_text e.text
                severity := some e.severity }))).take 5

/-- AttackVault.store: add the input with the metadata the engine
passes. -/
def VaultState.store (vault : VaultState) (e : VaultEntry) : VaultState :=
  { vault with entries := vault.entries ++ [e] }

namespace VaultSimilarityDetector

def detector_id : String := "d021_vault_similarity"

def severity : Severity := Severity.high

/-- VaultSimilarityDetector.detect: no-op without a vault; otherwise
query, keep matches at or above the vault's similarity threshold, and
report the top score as the confidence, with the severity taken from the
top match's metadata when present. -/
def detect (sim : String → String → ℚ) (vault : Option VaultState)
    (input_text : String) : DetectionResult :=
  match vault with
  | none =>
    { detector_id := detector_id
      detected := false
      confidence := 0
      severity := severity
      explanation := "Vault not available; skipping similarity check" }
  | some v =>
    let vault_matches := v.query sim input_text
    if vault_matches.isEmpty then
      { detector_id := detector_id
        detected := false
        confidence := 0
        severity := severity
        explanation := "No matches found in vault" }
    else
      let above := vault_matches.filter
        (fun vm => v.similarity_threshold ≤ vm.similarity_score)
      match above with
      | [] =>
        { detector_id := detector_id
          detected := false
          confidence := 0
          severity := severity
          explanation := "Vault matches found but none above threshold" }
      | top_match :: _ =>
        let sev :=
          match top_match.severity with
          | some s => s
          | none => severity
        { detector_id := detector_id
          detected := true
          confidence := top_match.similarity_score
          severity := sev
          matches' := above.map (fun _vm =>
            { pattern := "vault_similarity"
              matched_text := truncate120 input_text
              position := some (0, input_text.toList.length)
              description := "Vault entry matched" })
          explanation := "Input matched known attack pattern(s) in the vault" }

end VaultSimilarityDetector

/-! ## Scan orchestrator (`engine.py`, class `PromptShieldEngine`)

Compiled allow/block-list patterns are modelled by their observable
behaviour `pattern.search(text)` as boolean predicates.  A registered
detector is its id plus its `detect` capability; `detect` receives the
injected vault (only d021 reads it) and returns `none` when the Python
call raises. -/

/-- A registered detector as the orchestrator sees it
(`registry.list_all()` entries).  `detect` returning `none` models a
raised exception. -/
structure Detector where
  detector_id : String
  detect : Option VaultState → String → Option ScanContext → Option DetectionResult

/-- Per-detector configuration (`config.get_detector_config`): `enabled`
defaults to true, `threshold` falls back to the global threshold, and
`severity` is an optional override string. -/
structure DetectorConfig where
  enabled : Bool := true
  threshold : Option ℚ := none
  severity : Option String := none

/-- The engine-level configuration consumed by `scan`
(`prompt_shield` section of the config; defaults as in the source). -/
structure EngineConfig where
  mode : String := "block"
  threshold : ℚ := 7 / 10
  ensemble_bonus : ℚ := 1 / 20
  actions : Severity → Option String := fun _ => none
  allowlist : List (String → Bool) := []
  blocklist : List (String → Bool) := []
  detector_config : String → DetectorConfig := fun _ => {}
  auto_tuner_enabled : Bool := true
  auto_store_detections : Bool := true
  min_confidence_to_store : ℚ := 7 / 10
  tune_interval : Nat := 100
  max_adjustment : ℚ := 15 / 100

/-- config.get_action_for_severity: the configured severity→action
entry, defaulting to the mode. -/
def get_action_for_severity (cfg : EngineConfig) (sev : Severity) : String :=
  (cfg.actions sev).getD cfg.mode

/-- The severity override applied by the sweep
(`result.severity = Severity(cfg_severity)` with `ValueError`
swallowed). -/
def applySeverityOverride (dcfg : DetectorConfig) (result : DetectionResult) :
    DetectionResult :=
  match dcfg.severity with
  | some s =>
    match Severity.ofString s with
    | some sev => { result with severity := sev }
    | none => result
  | none => result

/-- The detector sweep (`engine.py` lines 216–245): for every enabled
detector resolve the effective threshold (tuned when the auto-tuner is
active), run it, count it toward `total_detectors_run` whether or not it
fired or raised, apply the configured severity override, and keep the
result only when `detected` and the confidence meets the threshold.
Returns the kept detections in sweep order together with the count of
detectors run. -/
def runDetectors (cfg : EngineConfig) (tuner : TunerState)
    (vault : Option VaultState) (input_text : String)
    (ctx : Option ScanContext) : List Detector → List DetectionResult × Nat
  | [] => ([], 0)
  | d :: rest =>
    let tail := runDetectors cfg tuner vault input_text ctx rest
    let dcfg := cfg.detector_config d.detector_id
    if dcfg.enabled = false then tail
    else
      let threshold0 := dcfg.threshold.getD cfg.threshold
      let threshold :=
        if cfg.auto_tuner_enabled then
          get_effective_threshold tuner d.detector_id threshold0
        else threshold0
      match d.detect vault input_text ctx with
      | none => (tail.1, tail.2 + 1)
      | some result =>
        let result := applySeverityOverride dcfg result
        if result.detected = true ∧ threshold ≤ result.confidence then
          (result :: tail.1, tail.2 + 1)
        else (tail.1, tail.2 + 1)

/-- Python `max(d.confidence for d in detections)` (call only on a
non-empty list; 0 on `[]` here). -/
def maxConfidence : List DetectionResult → ℚ
  | [] => 0
  | d :: ds => ds.foldl (fun a r => max a r.confidence) d.confidence

/-- The ensemble aggregation (`engine.py` lines 247–255). -/
def overall_risk_score (ensemble_bonus : ℚ)
    (detections : List DetectionResult) : ℚ :=
  if detections.isEmpty then 0
  else
    min 1 (maxConfidence detections +
      ensemble_bonus * ((detections.length : ℚ) - 1))

/-- The severity scanning order of `_determine_action`. -/
def severity_order : List Severity :=
  [Severity.critical, Severity.high, Severity.medium, Severity.low]

/-- PromptShieldEngine._determine_action: `pass` on no detections,
`log` in monitor mode, otherwise resolve the first severity tier that
has a member through the configured severity→action table, falling back
to `block` when the configured string is not a valid action, and to
`flag` when no tier matched. -/
def determine_action (cfg : EngineConfig)
    (detections : List DetectionResult) : Action :=
  if detections.isEmpty then Action.pass
  else if cfg.mode = "monitor" then Action.log
  else
    match severity_order.find?
        (fun sev => detections.any (fun d => d.severity = sev)) with
    | some sev =>
      match Action.ofString (get_action_for_severity cfg sev) with
      | some a => a
      | none => Action.block
    | none => Action.flag

/-- Python `max(detections, key=lambda d: d.confidence)` (first maximal
element). -/
def topByConfidence : List DetectionResult → Option DetectionResult
  | [] => none
  | d :: ds =>
    some (ds.foldl (fun best x => if best.confidence < x.confidence then x else best) d)

/-- PromptShieldEngine._build_report (hash/timestamp/duration elided). -/
def build_report (cfg : EngineConfig) (scan_id : String)
    (input_text : String) (action : Action)
    (detections : List DetectionResult) (total_run : Nat)
    (risk_score : ℚ := 0) (vault_matched : Bool := false) : ScanReport :=
  { scan_id := scan_id
    input_text := input_text
    overall_risk_score := risk_score
    action := action
    detections := detections
    total_detectors_run := total_run
    vault_matched := vault_matched
    config_mode := cfg.mode }

/-- The engine's mutable state observable by `scan`: the tuner table,
the vault contents, the accumulated feedback rows feeding `tune()`, and
the scan counter driving the periodic auto-tune. -/
structure EngineState where
  tuner : TunerState := []
  vault : Option VaultState := none
  feedback : List (String × List Bool) := []
  scan_count : Nat := 0

/-- PromptShieldEngine.scan (`engine.py` lines 181–308): allowlist
short-circuit, blocklist short-circuit, detector sweep, ensemble
aggregation, action resolution, report assembly, vault auto-store, and
the periodic auto-tune.  The SQLite history write (`_log_scan`) has no
effect on any report and is elided.  Returns the report together with
the successor engine state. -/
def scanStep (cfg : EngineConfig) (detectors : List Detector)
    (scan_id : String) (st : EngineState) (input_text : String)
    (context : Option ScanContext) : ScanReport × EngineState :=
  if cfg.allowlist.any (fun p => p input_text) then
    (build_report cfg scan_id input_text Action.pass [] 0, st)
  else if cfg.blocklist.any (fun p => p input_text) then
    (build_report cfg scan_id input_text Action.block [] 0 1, st)
  else
    let ctx : Option ScanContext := some (context.getD {})
    let swept := runDetectors cfg st.tuner st.vault input_text ctx detectors
    let detections := swept.1
    let total_run := swept.2
    let risk_score := overall_risk_score cfg.ensemble_bonus detections
    let action := determine_action cfg detections
    let vault_matched :=
      detections.any (fun d => d.detector_id = "d021_vault_similarity")
    let report := build_report cfg scan_id input_text action detections
      total_run risk_score vault_matched
    let vault' :=
      match st.vault with
      | none => none
      | some v =>
        if ¬ detections.isEmpty ∧ cfg.auto_store_detections ∧
            cfg.min_confidence_to_store ≤ risk_score then
          match topByConfidence detections with
          | some top =>
            some (v.store
              { text := input_text
                severity := top.severity
                confidence := top.confidence })
          | none => some v
        else some v
    let scan_count := st.scan_count + 1
    let tuner' :=
      if cfg.auto_tuner_enabled ∧ scan_count % cfg.tune_interval = 0 then
        tune cfg.max_adjustment st.feedback st.tuner
      else st.tuner
    (report,
      { st with vault := vault', tuner := tuner', scan_count := scan_count })

/-! ## Concrete example instances used by witnesses and counterexamples -/

/-- A custom detector that always fires with confidence 0.85 and
severity high (the shape of a one-match d008 verdict). -/
def exFiring : Detector :=
  { detector_id := "dX"
    detect := fun _ _ _ => some
      { detector_id := "dX"
        detected := true
        confidence := 85 / 100
        severity := Severity.high } }

/-- A detector whose `detect` raises on every call. -/
def exRaising : Detector :=
  { detector_id := "dR", detect := fun _ _ _ => none }

/-- The base64 candidate oracle evaluated at the concrete input
`"ignore aWdub3Jl"`: `_BASE64_PATTERN` matches exactly the run
`aWdub3Jl` at offsets 7–15 (`"ignore"` is 6 characters, below the
pattern's minimum of 8), and `decode_base64_safe("aWdub3Jl")` decodes it
to `"ignore"`. -/
def exCands : String → List B64Candidate := fun t =>
  if t = "ignore aWdub3Jl" then
    [{ b64_string := "aWdub3Jl", start_pos := 7, end_pos := 15,
       decoded := some "ignore" }]
  else []

/-- A deterministic external embedder: identical texts embed to the same
vector, so their cosine distance is 0 and the similarity score `1 -
distance` is 1; distinct texts are modelled as fully dissimilar. -/
def exSim : String → String → ℚ := fun a b => if a = b then 1 else 0

/-- d008 wrapped as a registered detector over the oracle `exCands`. -/
def exB64Detector : Detector :=
  { detector_id := Base64PayloadDetector.detector_id
    detect := fun _ t _ => some (Base64PayloadDetector.detect (exCands t)) }

/-- d021 wrapped as a registered detector over the embedder `exSim`;
the engine injects the vault. -/
def exVaultDetector : Detector :=
  { detector_id := VaultSimilarityDetector.detector_id
    detect := fun v t _ => some (VaultSimilarityDetector.detect exSim v t) }

/-! ## Helper lemmas -/

/-- The severity override never changes the confidence. -/
theorem applySeverityOverride_confidence (dcfg : DetectorConfig)
    (result : DetectionResult) :
    (applySeverityOverride dcfg result).confidence = result.confidence := by
  unfold applySeverityOverride
  split
  · split <;> rfl
  · rfl

/-- Every detection kept by the sweep is the (severity-overridden)
result of some detector in the list; in particular its confidence is the
confidence that detector returned. -/
theorem runDetectors_mem (cfg : EngineConfig) (tuner : TunerState)
    (vault : Option VaultState) (input_text : String)
    (ctx : Option ScanContext) :
    ∀ (ds : List Detector) (r : DetectionResult),
      r ∈ (runDetectors cfg tuner vault input_text ctx ds).1 →
      ∃ d ∈ ds, ∃ r₀, d.detect vault input_text ctx = some r₀ ∧
        r.confidence = r₀.confidence := by
  intro ds
  induction ds with
  | nil => intro r hr; simp [runDetectors] at hr
  | cons d rest ih =>
    intro r hr
    unfold runDetectors at hr
    by_cases hen : (cfg.detector_config d.detector_id).enabled = false
    · simp only [hen, if_pos, if_true] at hr
      obtain ⟨d', hd', hrest⟩ := ih r hr
      exact ⟨d', by simp [hd'], hrest⟩
    · simp only [hen, if_false] at hr
      cases hdet : d.detect vault input_text ctx with
      | none =>
        simp only [hdet] at hr
        obtain ⟨d', hd', hrest⟩ := ih r hr
        exact ⟨d', by simp [hd'], hrest⟩
      | some r₀ =>
        simp only [hdet] at hr
        by_cases hkeep :
            (applySeverityOverride (cfg.detector_config d.detector_id) r₀).detected
              = true ∧
            (if cfg.auto_tuner_enabled = true then
                get_effective_threshold tuner d.detector_id
                  ((cfg.detector_config d.detector_id).threshold.getD cfg.threshold)
              else
                (cfg.detector_config d.detector_id).threshold.getD cfg.threshold)
              ≤ (applySeverityOverride (cfg.detector_config d.detector_id) r₀).confidence
        · rw [if_pos hkeep] at hr
          rcases List.mem_cons.mp hr with h | h
          · refine ⟨d, by simp, r₀, hdet, ?_⟩
            rw [h, applySeverityOverride_confidence]
          · obtain ⟨d', hd', hrest⟩ := ih r h
            exact ⟨d', by simp [hd'], hrest⟩
        · rw [if_neg hkeep] at hr
          obtain ⟨d', hd', hrest⟩ := ih r hr
          exact ⟨d', by simp [hd'], hrest⟩

/-- Folding `max` over confidences stays below any bound dominating the
seed and all the elements. -/
theorem foldl_max_confidence_le (q : ℚ) :
    ∀ (ds : List DetectionResult) (a : ℚ), a ≤ q →
      (∀ r ∈ ds, r.confidence ≤ q) →
      ds.foldl (fun acc r => max acc r.confidence) a ≤ q := by
  intro ds
  induction ds with
  | nil => intro a ha _; simpa using ha
  | cons r rest ih =>
    intro a ha h
    simp only [List.foldl_cons]
    exact ih _ (max_le ha (h r (by simp)))
      (fun x hx => h x (by simp [hx]))

/-- `maxConfidence` of a non-empty list is below any bound dominating
all the confidences. -/
theorem maxConfidence_le (q : ℚ) (dets : List DetectionResult)
    (hne : dets ≠ []) (h : ∀ r ∈ dets, r.confidence ≤ q) :
    maxConfidence dets ≤ q := by
  cases dets with
  | nil => exact absurd rfl hne
  | cons d ds =>
    exact foldl_max_confidence_le q ds d.confidence (h d (by simp))
      (fun x hx => h x (by simp [hx]))

/-! ## Claim theorems -/

/-- Claim C2: for every input text, if any configured allowlist pattern
matches, `scan` returns action `pass` with zero detections, zero
detectors run and risk score 0 — even when a blocklist pattern also
matches, since the blocklist is never consulted; otherwise, if any
blocklist pattern matches, `scan` returns action `block` with risk score
1.0, zero detections and zero detectors run. -/
theorem scan_allowlist_dominates_blocklist (cfg : EngineConfig)
    (detectors : List Detector) (scan_id : String) (st : EngineState)
    (input_text : String) (context : Option ScanContext) :
    (cfg.allowlist.any (fun p => p input_text) = true →
      (scanStep cfg detectors scan_id st input_text context).1.action =
          Action.pass ∧
      (scanStep cfg detectors scan_id st input_text context).1.detections = [] ∧
      (scanStep cfg detectors scan_id st input_text context).1.total_detectors_run
          = 0 ∧
      (scanStep cfg detectors scan_id st input_text context).1.overall_risk_score
          = 0) ∧
    (cfg.allowlist.any (fun p => p input_text) = false →
      cfg.blocklist.any (fun p => p input_text) = true →
      (scanStep cfg detectors scan_id st input_text context).1.action =
          Action.block ∧
      (scanStep cfg detectors scan_id st input_text context).1.overall_risk_score
          = 1 ∧
      (scanStep cfg detectors scan_id st input_text context).1.detections = [] ∧
      (scanStep cfg detectors scan_id st input_text context).1.total_detectors_run
          = 0) := by
  constructor
  · intro hallow
    simp [scanStep, hallow, build_report]
  · intro hallow hblock
    simp [scanStep, hallow, hblock, build_report]

/-- Witness for C2: a text matching both an allow and a block pattern
passes, and a text matching only a block pattern blocks with risk 1. -/
theorem scan_allowlist_dominates_blocklist_witness :
    (scanStep
        { allowlist := [fun t => t == "hi"], blocklist := [fun t => t == "hi"] }
        [exFiring] "scan-a" {} "hi" none).1.action = Action.pass ∧
    (scanStep
        { allowlist := [fun t => t == "hi"], blocklist := [fun t => t == "bad"] }
        [exFiring] "scan-b" {} "bad" none).1.action = Action.block ∧
    (scanStep
        { allowlist := [fun t => t == "hi"], blocklist := [fun t => t == "bad"] }
        [exFiring] "scan-b" {} "bad" none).1.overall_risk_score = 1 := by
  refine ⟨?_, ?_, ?_⟩
  · exact ((scan_allowlist_dominates_blocklist
      { allowlist := [fun t => t == "hi"], blocklist := [fun t => t == "hi"] }
      [exFiring] "scan-a" {} "hi" none).1 (by simp)).1
  · exact (((scan_allowlist_dominates_blocklist
      { allowlist := [fun t => t == "hi"], blocklist := [fun t => t == "bad"] }
      [exFiring] "scan-b" {} "bad" none).2 (by simp) (by simp)).1)
  · exact (((scan_allowlist_dominates_blocklist
      { allowlist := [fun t => t == "hi"], blocklist := [fun t => t == "bad"] }
      [exFiring] "scan-b" {} "bad" none).2 (by simp) (by simp)).2.1)

/-- Claim C1: when neither list matches, a scan with no kept detections
scores 0; with kept detections the score is
`min 1 (max confidence + ensemble_bonus * (kept - 1))`, hence (for a
non-negative bonus and detector confidences within `[0, 1]`) at least
the maximum kept confidence, with equality when exactly one detection is
kept. -/
theorem scan_ensemble_risk_score (cfg : EngineConfig)
    (detectors : List Detector) (scan_id : String) (st : EngineState)
    (input_text : String) (context : Option ScanContext)
    (hallow : cfg.allowlist.any (fun p => p input_text) = false)
    (hblock : cfg.blocklist.any (fun p => p input_text) = false)
    (hbonus : 0 ≤ cfg.ensemble_bonus)
    (hconf : ∀ d ∈ detectors, ∀ v t c r, d.detect v t c = some r →
      r.confidence ≤ 1) :
    ((scanStep cfg detectors scan_id st input_text context).1.detections = [] →
      (scanStep cfg detectors scan_id st input_text context).1.overall_risk_score
        = 0) ∧
    ((scanStep cfg detectors scan_id st input_text context).1.detections ≠ [] →
      (scanStep cfg detectors scan_id st input_text context).1.overall_risk_score
          =
        min 1 (maxConfidence
            (scanStep cfg detectors scan_id st input_text context).1.detections +
          cfg.ensemble_bonus *
            (((scanStep cfg detectors scan_id st input_text
                context).1.detections.length : ℚ) - 1)) ∧
      maxConfidence
          (scanStep cfg detectors scan_id st input_text context).1.detections ≤
        (scanStep cfg detectors scan_id st input_text
          context).1.overall_risk_score ∧
      ((scanStep cfg detectors scan_id st input_text
          context).1.detections.length = 1 →
        (scanStep cfg detectors scan_id st input_text
            context).1.overall_risk_score =
          maxConfidence
            (scanStep cfg detectors scan_id st input_text
              context).1.detections)) := by
  have hrep : (scanStep cfg detectors scan_id st input_text context).1 =
      build_report cfg scan_id input_text
        (determine_action cfg
          (runDetectors cfg st.tuner st.vault input_text
            (some (context.getD {})) detectors).1)
        (runDetectors cfg st.tuner st.vault input_text
          (some (context.getD {})) detectors).1
        (runDetectors cfg st.tuner st.vault input_text
          (some (context.getD {})) detectors).2
        (overall_risk_score cfg.ensemble_bonus
          (runDetectors cfg st.tuner st.vault input_text
            (some (context.getD {})) detectors).1)
        ((runDetectors cfg st.tuner st.vault input_text
          (some (context.getD {})) detectors).1.any
            (fun d => d.detector_id = "d021_vault_similarity")) := by
    simp [scanStep, hallow, hblock]
  rw [hrep]
  have hconf' : ∀ r ∈ (runDetectors cfg st.tuner st.vault input_text
      (some (context.getD {})) detectors).1, r.confidence ≤ 1 := by
    intro r hr
    obtain ⟨d, hd, r₀, hdet, hconfeq⟩ :=
      runDetectors_mem cfg st.tuner st.vault input_text
        (some (context.getD {})) detectors r hr
    rw [hconfeq]
    exact hconf d hd _ _ _ _ hdet
  set dets := (runDetectors cfg st.tuner st.vault input_text
    (some (context.getD {})) detectors).1 with hdets
  constructor
  · intro hempty
    simp only [build_report] at hempty ⊢
    simp [overall_risk_score, hempty]
  · intro hne
    simp only [build_report] at hne ⊢
    have hne' : dets ≠ [] := hne
    have hmax1 : maxConfidence dets ≤ 1 := maxConfidence_le 1 dets hne' hconf'
    have hlen : (1 : ℚ) ≤ (dets.length : ℚ) := by
      have h1 : 1 ≤ dets.length := List.length_pos.mpr hne'
      exact_mod_cast h1
    have hform : overall_risk_score cfg.ensemble_bonus dets =
        min 1 (maxConfidence dets +
          cfg.ensemble_bonus * ((dets.length : ℚ) - 1)) := by
      simp [overall_risk_score, List.isEmpty_iff, hne']
    refine ⟨hform, ?_, ?_⟩
    · rw [hform]
      refine le_min hmax1 ?_
      have hnn : 0 ≤ cfg.ensemble_bonus * ((dets.length : ℚ) - 1) :=
        mul_nonneg hbonus (by linarith)
      linarith
    · intro hone
      rw [hform, hone]
      norm_num
      exact hmax1

/-- Witness for C1: a default-configured scan with one firing detector
keeps exactly one detection and scores exactly its confidence. -/
theorem scan_ensemble_risk_score_witness :
    (scanStep {} [exFiring] "scan-1" {} "text" none).1.detections.length = 1 ∧
    (scanStep {} [exFiring] "scan-1" {} "text" none).1.overall_risk_score =
      maxConfidence
        (scanStep {} [exFiring] "scan-1" {} "text" none).1.detections := by
  have hlen : (scanStep {} [exFiring] "scan-1" {} "text" none).1.detections.length
      = 1 := by
    simp only [scanStep, runDetectors, exFiring, applySeverityOverride,
      get_effective_threshold, build_report]
    norm_num
  have h := scan_ensemble_risk_score {} [exFiring] "scan-1" {} "text" none
    rfl rfl (by norm_num)
    (by
      intro d hd v t c r hr
      simp only [List.mem_singleton] at hd
      subst hd
      simp only [exFiring, Option.some.injEq] at hr
      rw [← hr]
      norm_num)
  refine ⟨hlen, (h.2 ?_).2.2 hlen⟩
  intro hcontra
  rw [hcontra] at hlen
  simp at hlen

/-- When neither list matches, the scan's report is the assembled report
over the detector sweep. -/
theorem scanStep_report (cfg : EngineConfig) (detectors : List Detector)
    (scan_id : String) (st : EngineState) (input_text : String)
    (context : Option ScanContext)
    (hallow : cfg.allowlist.any (fun p => p input_text) = false)
    (hblock : cfg.blocklist.any (fun p => p input_text) = false) :
    (scanStep cfg detectors scan_id st input_text context).1 =
      build_report cfg scan_id input_text
        (determine_action cfg
          (runDetectors cfg st.tuner st.vault input_text
            (some (context.getD {})) detectors).1)
        (runDetectors cfg st.tuner st.vault input_text
          (some (context.getD {})) detectors).1
        (runDetectors cfg st.tuner st.vault input_text
          (some (context.getD {})) detectors).2
        (overall_risk_score cfg.ensemble_bonus
          (runDetectors cfg st.tuner st.vault input_text
            (some (context.getD {})) detectors).1)
        ((runDetectors cfg st.tuner st.vault input_text
          (some (context.getD {})) detectors).1.any
            (fun d => d.detector_id = "d021_vault_similarity")) := by
  simp [scanStep, hallow, hblock]

/-- The `[]` equation of `runDetectors`. -/
theorem runDetectors_nil (cfg : EngineConfig) (tuner : TunerState)
    (vault : Option VaultState) (input_text : String)
    (ctx : Option ScanContext) :
    runDetectors cfg tuner vault input_text ctx [] = ([], 0) := rfl

/-- The `d :: rest` equation of `runDetectors`, with the recursive call
kept folded. -/
theorem runDetectors_cons (cfg : EngineConfig) (tuner : TunerState)
    (vault : Option VaultState) (input_text : String)
    (ctx : Option ScanContext) (d : Detector) (rest : List Detector) :
    runDetectors cfg tuner vault input_text ctx (d :: rest) =
      if (cfg.detector_config d.detector_id).enabled = false then
        runDetectors cfg tuner vault input_text ctx rest
      else
        match d.detect vault input_text ctx with
        | none =>
          ((runDetectors cfg tuner vault input_text ctx rest).1,
           (runDetectors cfg tuner vault input_text ctx rest).2 + 1)
        | some result =>
          if (applySeverityOverride (cfg.detector_config d.detector_id)
                result).detected = true ∧
              (if cfg.auto_tuner_enabled then
                  get_effective_threshold tuner d.detector_id
                    ((cfg.detector_config d.detector_id).threshold.getD
                      cfg.threshold)
                else
                  (cfg.detector_config d.detector_id).threshold.getD
                    cfg.threshold) ≤
                (applySeverityOverride (cfg.detector_config d.detector_id)
                  result).confidence then
            (applySeverityOverride (cfg.detector_config d.detector_id) result ::
              (runDetectors cfg tuner vault input_text ctx rest).1,
             (runDetectors cfg tuner vault input_text ctx rest).2 + 1)
          else
            ((runDetectors cfg tuner vault input_text ctx rest).1,
             (runDetectors cfg tuner vault input_text ctx rest).2 + 1) := rfl

/-- The sweep distributes over list append: detections concatenate and
the detectors-run counts add. -/
theorem runDetectors_append (cfg : EngineConfig) (tuner : TunerState)
    (vault : Option VaultState) (input_text : String)
    (ctx : Option ScanContext) (l₁ l₂ : List Detector) :
    runDetectors cfg tuner vault input_text ctx (l₁ ++ l₂) =
      ((runDetectors cfg tuner vault input_text ctx l₁).1 ++
        (runDetectors cfg tuner vault input_text ctx l₂).1,
       (runDetectors cfg tuner vault input_text ctx l₁).2 +
        (runDetectors cfg tuner vault input_text ctx l₂).2) := by
  induction l₁ with
  | nil => simp [runDetectors_nil]
  | cons d rest ih =>
    simp only [List.cons_append, runDetectors_cons, ih]
    by_cases hen : (cfg.detector_config d.detector_id).enabled = false
    · simp [hen]
    · simp only [hen, if_false]
      cases hdet : d.detect vault input_text ctx with
      | none =>
        simp [hdet, Prod.ext_iff]
        all_goals omega
      | some r =>
        simp only [hdet]
        by_cases hkeep :
            (applySeverityOverride (cfg.detector_config d.detector_id)
              r).detected = true ∧
            (if cfg.auto_tuner_enabled = true then
                get_effective_threshold tuner d.detector_id
                  ((cfg.detector_config d.detector_id).threshold.getD
                    cfg.threshold)
              else
                (cfg.detector_config d.detector_id).threshold.getD
                  cfg.threshold) ≤
              (applySeverityOverride (cfg.detector_config d.detector_id)
                r).confidence
        · simp only [if_pos hkeep]
          simp [Prod.ext_iff]
          all_goals omega
        · simp only [if_neg hkeep]
          simp [Prod.ext_iff]
          all_goals omega

/-- Claim C7: a detector whose `detect` raises is swallowed — it
contributes no detection, every other detector's contribution is
unchanged, the scan still assembles a complete report (same action and
risk score as without the failing detector), and the raising detector
still counts toward `total_detectors_run`. -/
theorem scan_detector_isolation (cfg : EngineConfig)
    (ds₁ ds₂ : List Detector) (f : Detector) (scan_id : String)
    (st : EngineState) (input_text : String) (context : Option ScanContext)
    (hallow : cfg.allowlist.any (fun p => p input_text) = false)
    (hblock : cfg.blocklist.any (fun p => p input_text) = false)
    (henabled : (cfg.detector_config f.detector_id).enabled = true)
    (hraise : f.detect st.vault input_text (some (context.getD {})) = none) :
    (scanStep cfg (ds₁ ++ f :: ds₂) scan_id st input_text
        context).1.detections =
      (scanStep cfg (ds₁ ++ ds₂) scan_id st input_text context).1.detections ∧
    (scanStep cfg (ds₁ ++ f :: ds₂) scan_id st input_text
        context).1.total_detectors_run =
      (scanStep cfg (ds₁ ++ ds₂) scan_id st input_text
        context).1.total_detectors_run + 1 ∧
    (scanStep cfg (ds₁ ++ f :: ds₂) scan_id st input_text context).1.action =
      (scanStep cfg (ds₁ ++ ds₂) scan_id st input_text context).1.action ∧
    (scanStep cfg (ds₁ ++ f :: ds₂) scan_id st input_text
        context).1.overall_risk_score =
      (scanStep cfg (ds₁ ++ ds₂) scan_id st input_text
        context).1.overall_risk_score := by
  have hf : runDetectors cfg st.tuner st.vault input_text
      (some (context.getD {})) (f :: ds₂) =
      ((runDetectors cfg st.tuner st.vault input_text
        (some (context.getD {})) ds₂).1,
       (runDetectors cfg st.tuner st.vault input_text
        (some (context.getD {})) ds₂).2 + 1) := by
    rw [runDetectors_cons]
    simp [henabled, hraise]
  rw [scanStep_report cfg (ds₁ ++ f :: ds₂) scan_id st input_text context
      hallow hblock,
    scanStep_report cfg (ds₁ ++ ds₂) scan_id st input_text context
      hallow hblock]
  rw [runDetectors_append cfg st.tuner st.vault input_text
      (some (context.getD {})) ds₁ (f :: ds₂),
    runDetectors_append cfg st.tuner st.vault input_text
      (some (context.getD {})) ds₁ ds₂, hf]
  refine ⟨rfl, ?_, rfl, rfl⟩
  simp [build_report]
  omega

/-- Witness for C7: an always-raising detector in front of a firing
detector changes nothing but the detectors-run count. -/
theorem scan_detector_isolation_witness :
    (scanStep {} [exRaising, exFiring] "scan-1" {} "text" none).1.detections =
      (scanStep {} [exFiring] "scan-1" {} "text" none).1.detections ∧
    (scanStep {} [exRaising, exFiring] "scan-1" {} "text"
        none).1.total_detectors_run =
      (scanStep {} [exFiring] "scan-1" {} "text" none).1.total_detectors_run
        + 1 ∧
    (scanStep {} [exRaising, exFiring] "scan-1" {} "text" none).1.action =
      (scanStep {} [exFiring] "scan-1" {} "text" none).1.action := by
  have h := scan_detector_isolation {} [] [exFiring] exRaising "scan-1" {}
    "text" none rfl rfl rfl rfl
  exact ⟨h.1, h.2.1, h.2.2.1⟩

/-- Claim C10: with at least one kept detection, a mode other than
`monitor`, and a configured severity→action mapping resolving the
highest present severity to a string that is not a valid `Action`
value, the scan fails closed: the action is `block`, not `flag`. -/
theorem scan_invalid_action_fails_closed (cfg : EngineConfig)
    (detectors : List Detector) (scan_id : String) (st : EngineState)
    (input_text : String) (context : Option ScanContext) (sev : Severity)
    (hallow : cfg.allowlist.any (fun p => p input_text) = false)
    (hblock : cfg.blocklist.any (fun p => p input_text) = false)
    (hmode : cfg.mode ≠ "monitor")
    (hkept : (runDetectors cfg st.tuner st.vault input_text
      (some (context.getD {})) detectors).1 ≠ [])
    (hsev : severity_order.find?
        (fun s => (runDetectors cfg st.tuner st.vault input_text
          (some (context.getD {})) detectors).1.any
            (fun d => d.severity = s)) = some sev)
    (hbad : Action.ofString (get_action_for_severity cfg sev) = none) :
    (scanStep cfg detectors scan_id st input_text context).1.action =
      Action.block := by
  rw [scanStep_report cfg detectors scan_id st input_text context hallow hblock]
  simp only [build_report]
  unfold determine_action
  rw [if_neg (by simpa [List.isEmpty_iff] using hkept), if_neg hmode, hsev]
  simp [hbad]

/-- Witness for C10: `high → "quarantine"` is not a valid action, so a
high-severity detection blocks. -/
theorem scan_invalid_action_fails_closed_witness :
    (scanStep
        { actions := fun s => if s = Severity.high then some "quarantine"
            else none }
        [exFiring] "scan-1" {} "text" none).1.action = Action.block := by
  refine scan_invalid_action_fails_closed
    { actions := fun s => if s = Severity.high then some "quarantine"
        else none }
    [exFiring] "scan-1" {} "text" none Severity.high rfl rfl (by decide) ?_ ?_ rfl
  · simp only [runDetectors_cons, runDetectors_nil, exFiring,
      applySeverityOverride, get_effective_threshold]
    norm_num
  · simp only [runDetectors_cons, runDetectors_nil, exFiring,
      applySeverityOverride, get_effective_threshold, severity_order]
    norm_num
    decide

/-- Claim C6: for every modelled detector and every input (quantifying
over the regex-match oracles where the detector uses one), a result with
`detected = false` has confidence 0 and an empty match list. -/
theorem detect_negative_zero_confidence (fm3 fm6 : List MatchDetail)
    (context : Option ScanContext) (cands : List B64Candidate)
    (input_text : String) (sim : String → String → ℚ)
    (vault : Option VaultState) :
    ((InstructionOverrideDetector.detect fm3).detected = false →
      (InstructionOverrideDetector.detect fm3).confidence = 0 ∧
      (InstructionOverrideDetector.detect fm3).matches' = []) ∧
    ((MultiTurnEscalationDetector.detect fm6 context).detected = false →
      (MultiTurnEscalationDetector.detect fm6 context).confidence = 0 ∧
      (MultiTurnEscalationDetector.detect fm6 context).matches' = []) ∧
    ((Base64PayloadDetector.detect cands).detected = false →
      (Base64PayloadDetector.detect cands).confidence = 0 ∧
      (Base64PayloadDetector.detect cands).matches' = []) ∧
    ((Rot13SubstitutionDetector.detect input_text).detected = false →
      (Rot13SubstitutionDetector.detect input_text).confidence = 0 ∧
      (Rot13SubstitutionDetector.detect input_text).matches' = []) ∧
    ((VaultSimilarityDetector.detect sim vault input_text).detected = false →
      (VaultSimilarityDetector.detect sim vault input_text).confidence = 0 ∧
      (VaultSimilarityDetector.detect sim vault input_text).matches' = []) := by
  refine ⟨?_, ?_, ?_, ?_, ?_⟩
  · intro h
    by_cases hc : fm3 = [] <;>
      simp [InstructionOverrideDetector.detect, hc] at h ⊢
  · intro h
    by_cases hc : fm6 = [] ∧
        MultiTurnEscalationDetector.history_count context < 3 <;>
      simp [MultiTurnEscalationDetector.detect, hc] at h ⊢
  · intro h
    by_cases hc : Base64PayloadDetector.collectMatches cands = [] <;>
      simp [Base64PayloadDetector.detect, hc] at h ⊢
  · intro h
    by_cases hc : Rot13SubstitutionDetector.collectMatches input_text = [] <;>
      simp [Rot13SubstitutionDetector.detect, hc] at h ⊢
  · intro h
    unfold VaultSimilarityDetector.detect at h ⊢
    cases vault with
    | none => simp_all
    | some v =>
      by_cases hq : (v.query sim input_text).isEmpty
      · simp [hq] at h ⊢
      · simp only [hq, Bool.false_eq_true, if_false] at h ⊢
        cases habove : (v.query sim input_text).filter
            (fun vm => decide (v.similarity_threshold ≤ vm.similarity_score)) with
        | nil => simp [habove] at h ⊢
        | cons top rest => simp [habove] at h ⊢

/-- Witness for C6: all five detectors on inputs where nothing fires. -/
theorem detect_negative_zero_confidence_witness :
    ((InstructionOverrideDetector.detect []).confidence = 0 ∧
      (InstructionOverrideDetector.detect []).matches' = []) ∧
    ((MultiTurnEscalationDetector.detect [] none).confidence = 0 ∧
      (MultiTurnEscalationDetector.detect [] none).matches' = []) ∧
    ((Base64PayloadDetector.detect []).confidence = 0 ∧
      (Base64PayloadDetector.detect []).matches' = []) ∧
    ((Rot13SubstitutionDetector.detect "").confidence = 0 ∧
      (Rot13SubstitutionDetector.detect "").matches' = []) ∧
    ((VaultSimilarityDetector.detect (fun _ _ => 0) none "").confidence = 0 ∧
      (VaultSimilarityDetector.detect (fun _ _ => 0) none "").matches' = []) := by
  have h := detect_negative_zero_confidence [] [] none [] "" (fun _ _ => 0) none
  exact ⟨h.1 (by decide), h.2.1 (by decide), h.2.2.1 (by decide),
    h.2.2.2.1 (by decide), h.2.2.2.2 (by decide)⟩

/-- Claim C8: when the caller-supplied conversation history has at
least 3 turns and every turn contains an escalation phrase (each turn
counted once), the multi-turn detector reports `detected = true` with
confidence at least `min 1 (0.85 + 0.05 * (count - 3))`, hence at least
0.85 — regardless of what the current message matched. -/
theorem multi_turn_history_escalation (matches' : List MatchDetail)
    (history : List String) (hlen : 3 ≤ history.length)
    (hall : ∀ m ∈ history,
      MultiTurnEscalationDetector.messageHasEscalationSignal m = true) :
    (MultiTurnEscalationDetector.detect matches'
        (some { conversation_history := some history })).detected = true ∧
    MultiTurnEscalationDetector.count_history_escalation_signals history =
      history.length ∧
    min 1 ((85 : ℚ) / 100 + 5 / 100 * ((history.length : ℚ) - 3)) ≤
      (MultiTurnEscalationDetector.detect matches'
        (some { conversation_history := some history })).confidence ∧
    (85 : ℚ) / 100 ≤
      (MultiTurnEscalationDetector.detect matches'
        (some { conversation_history := some history })).confidence := by
  have hne : history ≠ [] := by
    intro hcontra
    rw [hcontra] at hlen
    simp at hlen
  have hcount : MultiTurnEscalationDetector.count_history_escalation_signals
      history = history.length := by
    unfold MultiTurnEscalationDetector.count_history_escalation_signals
    rw [List.countP_eq_length.mpr]
    intro a ha
    simpa using hall a ha
  have hhc : MultiTurnEscalationDetector.history_count
      (some { conversation_history := some history }) = history.length := by
    simp [MultiTurnEscalationDetector.history_count, List.isEmpty_iff, hne,
      hcount]
  have h3 : 3 ≤ MultiTurnEscalationDetector.history_count
      (some { conversation_history := some history }) := by
    rw [hhc]; exact hlen
  have hnlt : ¬ MultiTurnEscalationDetector.history_count
      (some { conversation_history := some history }) < 3 := Nat.not_lt.mpr h3
  have hlenQ : (3 : ℚ) ≤ (history.length : ℚ) := by exact_mod_cast hlen
  refine ⟨?_, hcount, ?_, ?_⟩
  · simp [MultiTurnEscalationDetector.detect, hnlt]
  · simp only [MultiTurnEscalationDetector.detect,
      MultiTurnEscalationDetector.escalation_confidence, hnlt, h3, if_true,
      and_false, if_false]
    rw [hhc]
    exact le_max_right _ _
  · simp only [MultiTurnEscalationDetector.detect,
      MultiTurnEscalationDetector.escalation_confidence, hnlt, h3, if_true,
      and_false, if_false]
    rw [hhc]
    refine le_trans (le_min (by norm_num) (by linarith)) (le_max_right _ _)

/-- Witness for C8: three history turns each containing "can you", and
no current-message match. -/
theorem multi_turn_history_escalation_witness :
    (MultiTurnEscalationDetector.detect []
        (some { conversation_history := some ["can you a", "can you b",
          "can you c"] })).detected = true ∧
    (85 : ℚ) / 100 ≤
      (MultiTurnEscalationDetector.detect []
        (some { conversation_history := some ["can you a", "can you b",
          "can you c"] })).confidence := by
  have h := multi_turn_history_escalation []
    ["can you a", "can you b", "can you c"] (by decide) (by decide)
  exact ⟨h.1, h.2.2.2⟩

/-! ## Tuner invariant lemmas -/

/-- The clamp of `tune` keeps the cumulative adjustment within the
bound. -/
theorem clamp_abs_le (m x : ℚ) (hm : 0 ≤ m) :
    |max (-m) (min m x)| ≤ m := by
  rw [abs_le]
  exact ⟨le_max_left _ _, max_le (by linarith) (min_le_left _ _)⟩

/-- The upsert preserves the tuner bound, provided the inserted record
is in bound both against its own original threshold and against the
original threshold of any row it replaces (which the upsert keeps). -/
theorem upsertTuning_bounded (m : ℚ) (st : TunerState) (detector_id : String)
    (rec : TuningRecord) (hst : TunerBounded m st)
    (hrec : |rec.adjusted_threshold - rec.original_threshold| ≤ m)
    (hconf : ∀ old, st.lookup detector_id = some old →
      |rec.adjusted_threshold - old.original_threshold| ≤ m) :
    TunerBounded m (upsertTuning st detector_id rec) := by
  induction st with
  | nil =>
    intro p hp
    simp only [upsertTuning, List.mem_singleton] at hp
    rw [hp]
    exact hrec
  | cons a rest ih =>
    obtain ⟨k, old⟩ := a
    by_cases hk : k = detector_id
    · subst hk
      intro p hp
      rw [show upsertTuning ((k, old) :: rest) k rec =
          (k, { rec with original_threshold := old.original_threshold })
            :: rest by simp [upsertTuning]] at hp
      cases hp with
      | head =>
        exact hconf old (by simp [List.lookup])
      | tail _ hmem =>
        exact hst _ (List.mem_cons_of_mem _ hmem)
    · intro p hp
      rw [show upsertTuning ((k, old) :: rest) detector_id rec =
          (k, old) :: upsertTuning rest detector_id rec by
            simp [upsertTuning, hk]] at hp
      cases hp with
      | head =>
        exact hst (k, old) (by simp)
      | tail _ hmem =>
        refine ih (fun q hq => hst q (List.mem_cons_of_mem _ hq)) ?_ p hmem
        intro old' hold'
        refine hconf old' ?_
        have hbeq : (detector_id == k) = false := by
          simp [Ne.symm hk]
        simpa [List.lookup, hbeq] using hold'

/-- One tuning iteration preserves the tuner bound. -/
theorem tuneOne_bounded (m : ℚ) (hm : 0 ≤ m) (st : TunerState)
    (detector_id : String) (rows : List Bool) (hst : TunerBounded m st) :
    TunerBounded m (tuneOne m st detector_id rows) := by
  by_cases htot : (get_detector_stats rows).total < 10
  · simpa [tuneOne, htot] using hst
  · cases hlook : st.lookup detector_id with
    | none =>
      simp only [tuneOne, hlook, if_neg htot]
      refine upsertTuning_bounded m st detector_id _ hst ?_ ?_
      · simpa using clamp_abs_le m _ hm
      · intro old hold
        rw [hlook] at hold
        cases hold
    | some old =>
      simp only [tuneOne, hlook, if_neg htot]
      refine upsertTuning_bounded m st detector_id _ hst ?_ ?_
      · simpa using clamp_abs_le m _ hm
      · intro old' hold'
        rw [hlook] at hold'
        cases hold'
        simpa using clamp_abs_le m _ hm

/-- A whole `tune()` pass preserves the tuner bound. -/
theorem tune_bounded (m : ℚ) (hm : 0 ≤ m)
    (all_feedback : List (String × List Bool)) :
    ∀ st : TunerState, TunerBounded m st →
      TunerBounded m (tune m all_feedback st) := by
  induction all_feedback with
  | nil => intro st hst; exact hst
  | cons e rest ih =>
    intro st hst
    simp only [tune, List.foldl_cons] at ih ⊢
    exact ih _ (tuneOne_bounded m hm st e.1 e.2 hst)

/-- Claim C5: starting from the engine's empty tuning table, after any
number of `tune()` passes every persisted tuning row keeps
`|adjusted_threshold - original_threshold| ≤ max_adjustment`; the clamp
bounds the cumulative adjustment, not the per-run delta. -/
theorem tuner_cumulative_adjustment_bounded (max_adjustment : ℚ)
    (hm : 0 ≤ max_adjustment)
    (batches : List (List (String × List Bool))) :
    TunerBounded max_adjustment
      (batches.foldl (fun st fb => tune max_adjustment fb st) []) := by
  have h : ∀ (bs : List (List (String × List Bool))) (st : TunerState),
      TunerBounded max_adjustment st →
      TunerBounded max_adjustment
        (bs.foldl (fun st fb => tune max_adjustment fb st) st) := by
    intro bs
    induction bs with
    | nil => intro st hst; exact hst
    | cons b rest ih =>
      intro st hst
      simp only [List.foldl_cons]
      exact ih _ (tune_bounded max_adjustment hm b st hst)
  refine h batches [] ?_
  intro p hp
  cases hp

/-- Witness for C5: the default bound 0.15 after eleven tune passes
over false-positive-heavy feedback (the adjustment saturates at the
cap). -/
theorem tuner_cumulative_adjustment_bounded_witness :
    0 ≤ (15 / 100 : ℚ) ∧
    TunerBounded (15 / 100)
      ((List.replicate 11 [("d1", List.replicate 10 false)]).foldl
        (fun st fb => tune (15 / 100) fb st) []) :=
  ⟨by norm_num,
    tuner_cumulative_adjustment_bounded (15 / 100) (by norm_num)
      (List.replicate 11 [("d1", List.replicate 10 false)])⟩

/-! ## Tuner lookup lemmas -/

/-- Upserting one detector's row leaves every other lookup unchanged. -/
theorem lookup_upsertTuning_ne (st : TunerState) (k id : String)
    (rec : TuningRecord) (h : id ≠ k) :
    (upsertTuning st k rec).lookup id = st.lookup id := by
  induction st with
  | nil =>
    simp [upsertTuning, List.lookup, beq_eq_false_iff_ne.mpr h]
  | cons a rest ih =>
    obtain ⟨k', old⟩ := a
    by_cases hk : k' = k
    · subst hk
      simp only [upsertTuning, if_pos rfl]
      simp [List.lookup, beq_eq_false_iff_ne.mpr h]
    · simp only [upsertTuning, if_neg hk]
      by_cases hid : id = k'
      · subst hid
        simp [List.lookup]
      · simp [List.lookup, beq_eq_false_iff_ne.mpr hid, ih]

/-- Upserting over an existing row yields the new row, with the
original threshold preserved. -/
theorem lookup_upsertTuning_some (st : TunerState) (id : String)
    (rec old : TuningRecord) (h : st.lookup id = some old) :
    (upsertTuning st id rec).lookup id =
      some { rec with original_threshold := old.original_threshold } := by
  induction st with
  | nil => cases h
  | cons a rest ih =>
    obtain ⟨k, o⟩ := a
    by_cases hk : k = id
    · subst hk
      have ho : o = old := by simpa [List.lookup] using h
      subst ho
      simp [upsertTuning, List.lookup]
    · have hbeq : (id == k) = false := beq_eq_false_iff_ne.mpr (Ne.symm hk)
      simp only [upsertTuning, if_neg hk]
      simp only [List.lookup, hbeq]
      exact ih (by simpa [List.lookup, hbeq] using h)

/-- Tuning one detector leaves every other lookup unchanged. -/
theorem lookup_tuneOne_ne (m : ℚ) (st : TunerState) (k id : String)
    (rows : List Bool) (h : id ≠ k) :
    (tuneOne m st k rows).lookup id = st.lookup id := by
  by_cases htot : (get_detector_stats rows).total < 10
  · simp [tuneOne, htot]
  · simp only [tuneOne, if_neg htot]
    exact lookup_upsertTuning_ne st k id _ h

/-- A tune pass over feedback not mentioning a detector leaves its
lookup unchanged. -/
theorem lookup_tune_not_mem (m : ℚ) (fb : List (String × List Bool))
    (id : String) (h : id ∉ fb.map Prod.fst) :
    ∀ st : TunerState, (tune m fb st).lookup id = st.lookup id := by
  induction fb with
  | nil => intro st; rfl
  | cons e rest ih =>
    intro st
    simp only [List.map_cons, List.mem_cons] at h
    push_neg at h
    simp only [tune, List.foldl_cons] at ih ⊢
    rw [ih h.2, lookup_tuneOne_ne m st e.1 id e.2 h.1]

/-- Tuning a detector that has an existing row, at least 10 feedback
rows and a false-positive rate above 0.20 rewrites its row to
`original + clamp(adjusted - original + 0.03)`. -/
theorem lookup_tuneOne_fp (m : ℚ) (st : TunerState) (id : String)
    (rows : List Bool) (rec : TuningRecord)
    (hrec : st.lookup id = some rec)
    (htotal : 10 ≤ rows.length)
    (hfp : 1 / 5 < (get_detector_stats rows).fp_rate) :
    ((tuneOne m st id rows).lookup id).map
        (fun r => r.adjusted_threshold) =
      some (rec.original_threshold +
        max (-m) (min m
          (rec.adjusted_threshold - rec.original_threshold + 3 / 100))) := by
  have htot : ¬ (get_detector_stats rows).total < 10 := by
    simp only [get_detector_stats]
    omega
  simp only [tuneOne, if_neg htot, hrec, if_pos hfp]
  rw [lookup_upsertTuning_some st id _ rec hrec]
  rfl

/-- The new threshold the whole `tune()` pass assigns to a detector
with a prior row, ≥ 10 feedback rows with `fp_rate > 0.20`, assuming
distinct detector ids in the feedback statistics (SQL `DISTINCT`). -/
theorem get_effective_threshold_tune_fp (m default : ℚ)
    (fb : List (String × List Bool)) :
    ∀ (st : TunerState) (detector_id : String) (rows : List Bool)
      (rec : TuningRecord),
      (fb.map Prod.fst).Nodup →
      fb.lookup detector_id = some rows →
      st.lookup detector_id = some rec →
      10 ≤ rows.length →
      1 / 5 < (get_detector_stats rows).fp_rate →
      get_effective_threshold (tune m fb st) detector_id default =
        rec.original_threshold +
          max (-m) (min m
            (rec.adjusted_threshold - rec.original_threshold + 3 / 100)) := by
  induction fb with
  | nil =>
    intro st detector_id rows rec _ hfb
    cases hfb
  | cons e rest ih =>
    intro st detector_id rows rec hnodup hfb hrec htotal hfp
    obtain ⟨k, krows⟩ := e
    simp only [tune, List.foldl_cons]
    by_cases hk : detector_id = k
    · subst hk
      have hrows : krows = rows := by simpa [List.lookup] using hfb
      subst hrows
      have hnotmem : detector_id ∉ rest.map Prod.fst := by
        rw [List.map_cons, List.nodup_cons] at hnodup
        exact hnodup.1
      have hpass := lookup_tune_not_mem m rest detector_id hnotmem
        (tuneOne m st detector_id krows)
      unfold get_effective_threshold
      show (match (tune m rest (tuneOne m st detector_id krows)).lookup
          detector_id with
        | some row => row.adjusted_threshold
        | none => default) = _
      rw [hpass]
      have := lookup_tuneOne_fp m st detector_id krows rec hrec htotal hfp
      cases hlook : (tuneOne m st detector_id krows).lookup detector_id with
      | none => rw [hlook] at this; cases this
      | some r =>
        rw [hlook] at this
        simpa using this
    · have hbeq : (detector_id == k) = false := beq_eq_false_iff_ne.mpr hk
      have hfb' : rest.lookup detector_id = some rows := by
        simpa [List.lookup, hbeq] using hfb
      have hrec' : (tuneOne m st k krows).lookup detector_id = some rec := by
        rw [lookup_tuneOne_ne m st k detector_id krows hk]
        exact hrec
      have hnodup' : (rest.map Prod.fst).Nodup := by
        rw [List.map_cons, List.nodup_cons] at hnodup
        exact hnodup.2
      exact ih (tuneOne m st k krows) detector_id rows rec hnodup' hfb'
        hrec' htotal hfp

/-- Claim C3 (amended): for a detector that already has a tuning row,
at least 10 feedback rows and `fp_rate > 0.20`, one `tune()` call
raises the effective threshold from `adjusted_threshold` to
`min (adjusted_threshold + 0.03) (original_threshold + max_adjustment)`
— a raise of exactly 0.03 capped at `original + max_adjustment`, and
never a decrease.  (For a detector with no prior row the tuner instead
assumes an original of 0.5, see the counterexample.) -/
theorem tune_raises_threshold_with_record (m default : ℚ) (st : TunerState)
    (fb : List (String × List Bool)) (detector_id : String)
    (rec : TuningRecord) (rows : List Bool)
    (hnodup : (fb.map Prod.fst).Nodup)
    (hfb : fb.lookup detector_id = some rows)
    (hrec : st.lookup detector_id = some rec)
    (hbound : |rec.adjusted_threshold - rec.original_threshold| ≤ m)
    (htotal : 10 ≤ rows.length)
    (hfp : 1 / 5 < (get_detector_stats rows).fp_rate) :
    get_effective_threshold st detector_id default =
      rec.adjusted_threshold ∧
    get_effective_threshold (tune m fb st) detector_id default =
      min (rec.adjusted_threshold + 3 / 100)
        (rec.original_threshold + m) ∧
    rec.adjusted_threshold ≤
      get_effective_threshold (tune m fb st) detector_id default := by
  have habs := abs_le.mp hbound
  have hprev : get_effective_threshold st detector_id default =
      rec.adjusted_threshold := by
    simp [get_effective_threshold, hrec]
  have hnew := get_effective_threshold_tune_fp m default fb st detector_id
    rows rec hnodup hfb hrec htotal hfp
  have hclamp : max (-m)
      (min m (rec.adjusted_threshold - rec.original_threshold + 3 / 100)) =
      min m (rec.adjusted_threshold - rec.original_threshold + 3 / 100) := by
    rw [max_eq_right]
    exact le_min (by linarith) (by linarith)
  have hmin : rec.original_threshold +
      min m (rec.adjusted_threshold - rec.original_threshold + 3 / 100) =
      min (rec.adjusted_threshold + 3 / 100) (rec.original_threshold + m) := by
    rw [min_comm]
    rw [← min_add_add_left]
    ring_nf
  rw [hnew, hclamp, hmin]
  refine ⟨hprev, rfl, le_min (by linarith) (by linarith)⟩

/-- Counterexample for C3: an untuned detector (no prior tuning row)
with configured default threshold 0.7 and ten all-false-positive
feedback rows.  Its previous effective threshold is 0.7, yet after one
`tune()` the effective threshold is 0.53 (the tuner assumes an original
of 0.5), which is not 0.7 + 0.03 — tune() here lowers the threshold. -/
theorem tune_untuned_detector_counterexample :
    (get_detector_stats (List.replicate 10 false)).total = 10 ∧
    1 / 5 < (get_detector_stats (List.replicate 10 false)).fp_rate ∧
    get_effective_threshold [] "d1" (7 / 10) = 7 / 10 ∧
    get_effective_threshold
        (tune (15 / 100) [("d1", List.replicate 10 false)] []) "d1" (7 / 10)
      = 53 / 100 ∧
    ¬ (53 / 100 : ℚ) = 7 / 10 + 3 / 100 ∧
    (53 / 100 : ℚ) < 7 / 10 := by
  refine ⟨by simp [get_detector_stats], ?_, rfl, ?_, by norm_num, by norm_num⟩
  · simp [get_detector_stats]
    norm_num
  · simp [tune, tuneOne, get_detector_stats, upsertTuning,
      get_effective_threshold]
    norm_num

/-- Witness for the amended C3: a detector tuned to 0.6 from an
original 0.55 (cap 0.15) rises to exactly 0.63 after one tune pass over
ten all-false-positive rows. -/
theorem tune_raises_threshold_with_record_witness :
    get_effective_threshold
      [("d1", { adjusted_threshold := 6 / 10, original_threshold := 55 / 100,
                total_scans := 10, true_positives := 0,
                false_positives := 10 })] "d1" (7 / 10) = 6 / 10 ∧
    get_effective_threshold
      (tune (15 / 100) [("d1", List.replicate 10 false)]
        [("d1", { adjusted_threshold := 6 / 10,
                  original_threshold := 55 / 100, total_scans := 10,
                  true_positives := 0, false_positives := 10 })])
      "d1" (7 / 10) = 63 / 100 := by
  have h := tune_raises_threshold_with_record (15 / 100) (7 / 10)
    [("d1", { adjusted_threshold := 6 / 10, original_threshold := 55 / 100,
              total_scans := 10, true_positives := 0,
              false_positives := 10 })]
    [("d1", List.replicate 10 false)] "d1"
    { adjusted_threshold := 6 / 10, original_threshold := 55 / 100,
      total_scans := 10, true_positives := 0, false_positives := 10 }
    (List.replicate 10 false)
    (by simp)
    (by simp [List.lookup])
    (by simp [List.lookup])
    (by rw [abs_le]; constructor <;> norm_num)
    (by simp)
    (by simp [get_detector_stats]; norm_num)
  refine ⟨h.1, h.2.1.trans ?_⟩
  norm_num

/-- Claim C4 (amended): for the ROT13/l33tspeak/reversed-text detector
(d009), a keyword found in a decoded transform counts as a signal only
when it is not already a keyword of the untransformed original input.
The base64 detector (d008), by contrast, counts keywords found in
decoded payloads regardless of the original — see the counterexample. -/
theorem rot13_signal_keywords_not_in_original (input_text : String)
    (kw : String)
    (hkw : kw ∈ Rot13SubstitutionDetector.rot13_unique input_text ++
        Rot13SubstitutionDetector.leet_unique input_text ++
        Rot13SubstitutionDetector.reversed_unique input_text) :
    keywordInLower kw input_text = false ∧
    kw ∉ Rot13SubstitutionDetector.find_keywords input_text := by
  have hsplit : kw ∈ Rot13SubstitutionDetector.suspicious_keywords ∧
      kw ∉ Rot13SubstitutionDetector.find_keywords input_text := by
    rcases List.mem_append.mp hkw with h | h
    · rcases List.mem_append.mp h with h | h
      · obtain ⟨h1, h2⟩ := List.mem_filter.mp h
        obtain ⟨hsusp, _⟩ := List.mem_filter.mp h1
        exact ⟨hsusp, of_decide_eq_true h2⟩
      · obtain ⟨h1, h2⟩ := List.mem_filter.mp h
        obtain ⟨hsusp, _⟩ := List.mem_filter.mp h1
        exact ⟨hsusp, of_decide_eq_true h2⟩
    · obtain ⟨h1, h2⟩ := List.mem_filter.mp h
      obtain ⟨hsusp, _⟩ := List.mem_filter.mp h1
      exact ⟨hsusp, of_decide_eq_true h2⟩
  refine ⟨?_, hsplit.2⟩
  by_contra hcontra
  rw [Bool.not_eq_false] at hcontra
  exact hsplit.2 (List.mem_filter.mpr ⟨hsplit.1, hcontra⟩)

/-- Witness for the amended C4: `"vtaber"` is ROT13 for `"ignore"`; the
decoded keyword is a signal and is absent from the original. -/
theorem rot13_signal_keywords_not_in_original_witness :
    ("ignore" ∈ Rot13SubstitutionDetector.rot13_unique "vtaber" ++
      Rot13SubstitutionDetector.leet_unique "vtaber" ++
      Rot13SubstitutionDetector.reversed_unique "vtaber") ∧
    keywordInLower "ignore" "vtaber" = false :=
  ⟨by decide,
    (rot13_signal_keywords_not_in_original "vtaber" "ignore" (by decide)).1⟩

/-- Counterexample for C4: on input `"ignore aWdub3Jl"` the only
suspicious keyword of the decoded base64 payload (`"ignore"`, from
`aWdub3Jl`) is already present in the untransformed original, so under
the claim the base64 detector should see no signal; the source detector
nonetheless counts it and fires with confidence 0.85 (the spec-modelled
keyword filter `specFoundKeywordsB64` is empty there). -/
theorem base64_counts_keyword_already_in_original :
    Base64PayloadDetector.found_keywords "ignore" = ["ignore"] ∧
    keywordInLower "ignore" "ignore aWdub3Jl" = true ∧
    specFoundKeywordsB64 "ignore aWdub3Jl" "ignore" = [] ∧
    (Base64PayloadDetector.detect (exCands "ignore aWdub3Jl")).detected
      = true ∧
    (Base64PayloadDetector.detect (exCands "ignore aWdub3Jl")).confidence
      = 85 / 100 := by
  have h : Base64PayloadDetector.collectMatches (exCands "ignore aWdub3Jl") =
      [{ pattern := "[A-Za-z0-9+/]\x7b8,\x7d=\x7b0,2\x7d"
         matched_text := "aWdub3Jl"
         position := some (7, 15)
         description := "Base64-encoded text decodes to suspicious content" }]
      := by decide
  refine ⟨by decide, by decide, by decide, ?_, ?_⟩
  · rw [Base64PayloadDetector.detect, h]
    norm_num
  · rw [Base64PayloadDetector.detect, h]
    norm_num

/-- The scan verdict depends on the engine state only through the tuner
table and the vault contents. -/
theorem scanStep_state_invariant (cfg : EngineConfig)
    (detectors : List Detector) (scan_id scan_id' : String)
    (st st' : EngineState) (input_text : String)
    (context : Option ScanContext)
    (htuner : st'.tuner = st.tuner) (hvault : st'.vault = st.vault) :
    (scanStep cfg detectors scan_id' st' input_text context).1.action =
      (scanStep cfg detectors scan_id st input_text context).1.action ∧
    (scanStep cfg detectors scan_id' st' input_text
        context).1.overall_risk_score =
      (scanStep cfg detectors scan_id st input_text
        context).1.overall_risk_score := by
  by_cases hallow : cfg.allowlist.any (fun p => p input_text) = true
  · simp [scanStep, hallow, build_report]
  · rw [Bool.not_eq_true] at hallow
    by_cases hblock : cfg.blocklist.any (fun p => p input_text) = true
    · simp [scanStep, hallow, hblock, build_report]
    · rw [Bool.not_eq_true] at hblock
      rw [scanStep_report cfg detectors scan_id st input_text context
          hallow hblock,
        scanStep_report cfg detectors scan_id' st' input_text context
          hallow hblock]
      rw [htuner, hvault]
      exact ⟨rfl, rfl⟩

/-- Claim C9 (amended): scanning the same text twice with the same
context yields the same action and overall risk score provided the
first scan changed neither the tuning state (the claim's own proviso)
nor the vault contents — e.g. with the vault disabled or auto-store
off.  With vault auto-store enabled the first scan can store the input,
after which the vault-similarity detector fires on the second scan and
changes the risk score; see the counterexample. -/
theorem scan_idempotent_when_state_unchanged (cfg : EngineConfig)
    (detectors : List Detector) (scan_id₁ scan_id₂ : String)
    (st : EngineState) (input_text : String) (context : Option ScanContext)
    (htuner : (scanStep cfg detectors scan_id₁ st input_text context).2.tuner
      = st.tuner)
    (hvault : (scanStep cfg detectors scan_id₁ st input_text context).2.vault
      = st.vault) :
    (scanStep cfg detectors scan_id₂
        (scanStep cfg detectors scan_id₁ st input_text context).2
        input_text context).1.action =
      (scanStep cfg detectors scan_id₁ st input_text context).1.action ∧
    (scanStep cfg detectors scan_id₂
        (scanStep cfg detectors scan_id₁ st input_text context).2
        input_text context).1.overall_risk_score =
      (scanStep cfg detectors scan_id₁ st input_text
        context).1.overall_risk_score :=
  scanStep_state_invariant cfg detectors scan_id₁ scan_id₂ st
    (scanStep cfg detectors scan_id₁ st input_text context).2 input_text
    context htuner hvault

/-- Witness for the amended C9: with the vault absent, two scans of the
same text agree on action and risk score. -/
theorem scan_idempotent_when_state_unchanged_witness :
    (scanStep {} [exFiring] "scan-2"
        (scanStep {} [exFiring] "scan-1" {} "text" none).2 "text" none).1.action
      = (scanStep {} [exFiring] "scan-1" {} "text" none).1.action ∧
    (scanStep {} [exFiring] "scan-2"
        (scanStep {} [exFiring] "scan-1" {} "text" none).2 "text"
        none).1.overall_risk_score
      = (scanStep {} [exFiring] "scan-1" {} "text"
        none).1.overall_risk_score := by
  refine scan_idempotent_when_state_unchanged {} [exFiring] "scan-1" "scan-2"
    {} "text" none ?_ ?_
  · simp [scanStep]
  · simp [scanStep]

/-- Counterexample for C9: with the default configuration (vault
enabled, auto-store on) and a high-confidence detection, the first scan
stores the input in the vault while leaving the tuning state unchanged;
on the second scan of the very same text the vault-similarity detector
matches the stored entry (a deterministic embedder scores identical
texts at similarity 1 ≥ 0.85) and the risk score changes from 0.85 to
1. -/
theorem scan_vault_autostore_counterexample :
    (scanStep {} [exFiring, exVaultDetector] "scan-1"
        { vault := some { entries := [] } } "attack text" none).2.tuner =
      ({ vault := some { entries := [] } } : EngineState).tuner ∧
    (scanStep {} [exFiring, exVaultDetector] "scan-1"
        { vault := some { entries := [] } } "attack text"
        none).1.overall_risk_score = 85 / 100 ∧
    (scanStep {} [exFiring, exVaultDetector] "scan-2"
        (scanStep {} [exFiring, exVaultDetector] "scan-1"
          { vault := some { entries := [] } } "attack text" none).2
        "attack text" none).1.overall_risk_score = 1 ∧
    ¬ ((85 : ℚ) / 100 = 1) := by
  have hs1 : (scanStep {} [exFiring, exVaultDetector] "scan-1"
        { vault := some { entries := [] } } "attack text" none).2 =
      { tuner := [],
        vault := some { entries :=
          [{ text := "attack text", severity := Severity.high,
             confidence := 85 / 100 }] },
        feedback := [], scan_count := 1 } := by
    norm_num [scanStep, runDetectors_cons, runDetectors_nil, exFiring,
      exVaultDetector, VaultSimilarityDetector.detect, VaultState.query,
      VaultState.store, sortByScoreDesc, insertByScoreDesc,
      applySeverityOverride, get_effective_threshold, overall_risk_score,
      maxConfidence, topByConfidence, exSim, build_report, determine_action,
      severity_order, get_action_for_severity, Action.ofString]
  refine ⟨?_, ?_, ?_, by norm_num⟩
  · rw [hs1]
  · norm_num [scanStep, runDetectors_cons, runDetectors_nil, exFiring,
      exVaultDetector, VaultSimilarityDetector.detect, VaultState.query,
      VaultState.store, sortByScoreDesc, insertByScoreDesc,
      applySeverityOverride, get_effective_threshold, overall_risk_score,
      maxConfidence, topByConfidence, exSim, build_report, determine_action,
      severity_order, get_action_for_severity, Action.ofString]
  · rw [hs1]
    norm_num [scanStep, runDetectors_cons, runDetectors_nil, exFiring,
      exVaultDetector, VaultSimilarityDetector.detect, VaultState.query,
      VaultState.store, sortByScoreDesc, insertByScoreDesc,
      applySeverityOverride, get_effective_threshold, overall_risk_score,
      maxConfidence, topByConfidence, exSim, build_report, determine_action,
      severity_order, get_action_for_severity, Action.ofString]

end PromptShield
